import Mathlib

/-!
Verification of the CwaWeather backend (`src/locations.js`, `src/server.js`)
against its natural-language specification.

The JavaScript source is shallowly embedded: the static location table is a
Lean association list, the fallible fetch/normalize pipeline returns
`Except`, object mutation (for the defensive-copy property) is modelled by
an explicit heap of objects.
-/

namespace CwaWeather

/-! ## Location registry (`src/locations.js`) -/

/-- The static code → name table (`const locations = {...}` in
`src/locations.js`, in source order). -/
def locations : List (String × String) :=
  [ ("taipei", "台北市"),
    ("newtaipei", "新北市"),
    ("taoyuan", "桃園市"),
    ("hsinchu", "新竹市"),
    ("hsinchucounty", "新竹縣"),
    ("miaoli", "苗栗縣"),
    ("taichung", "台中市"),
    ("nantou", "南投縣"),
    ("changhua", "彰化縣"),
    ("yunlin", "雲林縣"),
    ("chiayi", "嘉義市"),
    ("chiayi_county", "嘉義縣"),
    ("tainan", "台南市"),
    ("kaohsiung", "高雄市"),
    ("pingtung", "屏東縣"),
    ("yilan", "宜蘭縣"),
    ("taitung", "台東縣"),
    ("hualien", "花蓮縣"),
    ("penghu", "澎湖縣"),
    ("kinmen", "金門縣"),
    ("lienchiang", "連江縣") ]

/-- JavaScript `String.prototype.toLowerCase` (ASCII range; characters
outside `A`-`Z` are untouched, as with the CJK names used here). -/
def jsToLowerCase (s : String) : String :=
  ⟨s.data.map Char.toLower⟩

/-- JavaScript `String.prototype.toUpperCase` (ASCII range). -/
def jsToUpperCase (s : String) : String :=
  ⟨s.data.map Char.toUpper⟩

/-- JavaScript `String.prototype.trim`: strip leading and trailing
whitespace. -/
def jsTrim (s : String) : String :=
  ⟨((s.data.dropWhile Char.isWhitespace).reverse.dropWhile
      Char.isWhitespace).reverse⟩

/-- The normalization `code.toLowerCase().trim()` applied before lookup. -/
def jsNormalize (s : String) : String :=
  jsTrim (jsToLowerCase s)

/-- The own property names of `Object.prototype`, the prototype of the
object literal `locations`.  Bracket access on the table falls back to
these (case-sensitively) when no own property matches; every one of them
holds a truthy non-string value (a built-in function, and for
`"__proto__"` the prototype object itself). -/
def objectProtoProps : List String :=
  [ "constructor", "__defineGetter__", "__defineSetter__",
    "hasOwnProperty", "__lookupGetter__", "__lookupSetter__",
    "isPrototypeOf", "propertyIsEnumerable", "toString", "valueOf",
    "__proto__", "toLocaleString" ]

/-- A value that `locations[key]` can produce: an own entry of the table
(a location-name string), or a truthy non-string value inherited from
`Object.prototype` (tagged with the property name found). -/
inductive JsValue where
  | str (s : String)
  | protoVal (name : String)
deriving Repr, DecidableEq

/-- JavaScript property access `tbl[key] || null`: the own binding for
`key` when present (demoted to `null` when its value is falsy, i.e. the
empty string), otherwise the inherited `Object.prototype` property of
that exact name when one exists (always truthy), otherwise `null`. -/
def jsLookup (tbl : List (String × String)) (key : String) : Option JsValue :=
  match tbl.find? (fun p => p.1 = key) with
  | some p => if p.2 = "" then none else some (.str p.2)
  | none =>
    if key ∈ objectProtoProps then some (.protoVal key) else none

/-- `getLocationName` over an explicit table: `if (!code) return null;`
then lookup of `code.toLowerCase().trim()`.  `code` is `Option String`
(`none` models `null`/`undefined`). -/
def getLocationNameIn (tbl : List (String × String)) (code : Option String) :
    Option JsValue :=
  match code with
  | none => none
  | some s => if s = "" then none else jsLookup tbl (jsNormalize s)

/-- `getLocationName` from `src/locations.js`. -/
def getLocationName (code : Option String) : Option JsValue :=
  getLocationNameIn locations code

/-- `isValidLocation`: `getLocationName(code) !== null`. -/
def isValidLocation (code : Option String) : Bool :=
  getLocationName code ≠ none

/-- `getAllLocationCodes`: `Object.keys(locations)` in insertion order. -/
def getAllLocationCodes : List String :=
  locations.map Prod.fst

/-- `GET /api/locations` response body:
`{ total, locations, codes }` (`src/server.js`, route handler). -/
structure LocationsResponse where
  total : Nat
  locations : List (String × String)
  codes : List String
deriving Repr, DecidableEq

/-- The payload produced by the `/api/locations` route. -/
def apiLocations : LocationsResponse :=
  { total := getAllLocationCodes.length,
    locations := locations,
    codes := getAllLocationCodes }

/-! ## Upstream data model (`src/server.js`, CWA F-C0032-001 response shape) -/

/-- One entry of a weather element's `time` array:
`{startTime, endTime, parameter: {parameterName}}`. -/
structure TimeEntry where
  startTime : String
  endTime : String
  parameterName : String
deriving Repr, DecidableEq

/-- One weather element: `{elementName, time: [...]}`. -/
structure WeatherElement where
  elementName : String
  time : List TimeEntry
deriving Repr, DecidableEq

/-- One location record: `{locationName, weatherElement: [...]}`. -/
structure LocationData where
  locationName : String
  weatherElement : List WeatherElement
deriving Repr, DecidableEq

/-- The upstream response envelope, restricted to the fields the server
reads: `records.location` and `records.datasetDescription`. -/
structure UpstreamResponse where
  location : List LocationData
  datasetDescription : String
deriving Repr, DecidableEq

/-- One normalized forecast period pushed onto `weatherData.forecasts`. -/
structure Forecast where
  startTime : String
  endTime : String
  weather : String
  rain : String
  minTemp : String
  maxTemp : String
  comfort : String
  windSpeed : String
deriving Repr, DecidableEq

/-- The `weatherData` object returned by `getWeather`. -/
structure WeatherData where
  city : String
  updateTime : String
  forecasts : List Forecast
deriving Repr, DecidableEq

/-- Failures of `getWeather`: the ad-hoc `{status, error, message}` objects
it throws, and the raw `TypeError` a JavaScript property read on
`undefined` raises (tagged with the property being read). -/
inductive WErr where
  | thrown (status : Nat) (error : String) (message : String)
  | typeError (property : String)
deriving Repr, DecidableEq

/-! ## Forecast fetcher & normalizer (`getWeather` in `src/server.js`) -/

/-- One iteration of the `weatherElements.forEach` body at time index `i`:
reads `element.time[i].parameter` (a `TypeError` when `time[i]` is
`undefined`), then routes `value.parameterName` by `element.elementName`. -/
def routeElement (f : Forecast) (e : WeatherElement) (i : Nat) :
    Except WErr Forecast :=
  match e.time.get? i with
  | none => .error (.typeError "parameter")
  | some te =>
    .ok (match e.elementName with
      | "Wx" => { f with weather := te.parameterName }
      | "PoP" => { f with rain := te.parameterName ++ "%" }
      | "MinT" => { f with minTemp := te.parameterName ++ "°C" }
      | "MaxT" => { f with maxTemp := te.parameterName ++ "°C" }
      | "CI" => { f with comfort := te.parameterName }
      | "WS" => { f with windSpeed := te.parameterName }
      | _ => f)

/-- Left-to-right effectful fold of `routeElement` over the element list,
mirroring `weatherElements.forEach(...)` (a later element overwrites an
earlier one that routes to the same field). -/
def routeAll (wes : List WeatherElement) (i : Nat) (f : Forecast) :
    Except WErr Forecast :=
  match wes with
  | [] => .ok f
  | e :: rest => do
    let f' ← routeElement f e i
    routeAll rest i f'

/-- The body of the `for (let i = 0; i < timeCount; i++)` loop: builds the
forecast for time index `i` from the first element's `startTime`/`endTime`
and every element's value at `i`. -/
def buildForecast (wes : List WeatherElement) (i : Nat) :
    Except WErr Forecast :=
  match wes.head? with
  | none => .error (.typeError "time")
  | some w0 =>
    match w0.time.get? i with
    | none => .error (.typeError "startTime")
    | some t0 =>
      routeAll wes i
        { startTime := t0.startTime, endTime := t0.endTime,
          weather := "", rain := "", minTemp := "", maxTemp := "",
          comfort := "", windSpeed := "" }

/-- Effectful map over a list of indices, mirroring the sequential `for`
loop (the first failing index aborts the whole computation). -/
def mapIdx (g : Nat → Except WErr Forecast) :
    List Nat → Except WErr (List Forecast)
  | [] => .ok []
  | i :: is => do
    let f ← g i
    let fs ← mapIdx g is
    .ok (f :: fs)

/-- The pure normalization part of `getWeather`: everything after the
upstream response arrives (`src/server.js` lines 52-113). -/
def normalize (location : String) (resp : UpstreamResponse) :
    Except WErr WeatherData :=
  match resp.location.head? with
  | none =>
    .error (.thrown 404 "查無資料" ("無法取得 " ++ location ++ " 的天氣資料"))
  | some locationData =>
    match locationData.weatherElement.head? with
    | none => .error (.typeError "time")
    | some w0 => do
      let timeCount := w0.time.length
      let forecasts ← mapIdx (buildForecast locationData.weatherElement)
        (List.range timeCount)
      .ok { city := locationData.locationName,
            updateTime := resp.datasetDescription,
            forecasts := forecasts }

/-- JavaScript falsiness of `CWA_API_KEY` (`undefined` or `""`). -/
def jsFalsy : Option String → Bool
  | none => true
  | some s => s = ""

/-- `getWeather`: `apiKey` models the process-wide `CWA_API_KEY`,
`resp` the body the upstream GET would return.  The second component
records whether the network call was attempted. -/
def getWeather (apiKey : Option String) (location : String)
    (resp : UpstreamResponse) : Except WErr WeatherData × Bool :=
  if jsFalsy apiKey then
    (.error (.thrown 500 "伺服器設定錯誤" "請在 .env 檔案中設定 CWA_API_KEY"),
     false)
  else
    (normalize location resp, true)

/-! ## Route handler (`handleGetWeather` and the fixed kaohsiung route) -/

/-- The JSON response a weather route sends. -/
inductive ApiResponse where
  | success (data : WeatherData)
  | failure (status : Nat) (error : String) (message : String)
deriving Repr, DecidableEq

/-- JavaScript string coercion of a truthy `Object.prototype` value, as
template-literal interpolation and query serialization apply it.  Only
reachable when the requested code names an inherited property; never hit
by any registered code. -/
def protoValString (name : String) : String :=
  if name = "__proto__" then "[object Object]"
  else "function " ++ name ++ "() { [native code] }"

/-- `handleGetWeather`: resolves `req.params.location` (falling back to
`"yilan"` when absent/empty, and to the literal token when not a known
code), calls `getWeather`, and maps thrown errors to HTTP responses.
When the resolution hits an inherited `Object.prototype` value, that
value flows on as the location and is string-coerced downstream. -/
def handleGetWeather (apiKey : Option String) (paramLocation : Option String)
    (resp : UpstreamResponse) : ApiResponse :=
  let loc0 := match paramLocation with
    | none => "yilan"
    | some s => if s = "" then "yilan" else s
  let loc := match getLocationName (some loc0) with
    | some (.str v) => v
    | some (.protoVal name) => protoValString name
    | none => loc0
  match (getWeather apiKey loc resp).1 with
  | .ok wd => .success wd
  | .error (.thrown status err msg) => .failure status err msg
  | .error (.typeError _) =>
    .failure 500 "伺服器錯誤" "無法取得天氣資料，請稍後再試"

/-- The fixed route `GET /api/weather/kaohsiung`: sets
`req.params.location = "kaohsiung"` and delegates to `handleGetWeather`. -/
def handleKaohsiungRoute (apiKey : Option String) (resp : UpstreamResponse) :
    ApiResponse :=
  handleGetWeather apiKey (some "kaohsiung") resp

/-! ## Object heap (for the defensive-copy property of `getAllLocations`)

JavaScript objects are mutable and aliased, so `getAllLocations`'s spread
copy `{ ...locations }` is modelled on an explicit heap: object identity is
an index into a store of tables, the registry's internal table is object 0,
and mutation rewrites one object in place. -/

/-- A heap of JavaScript objects holding code → name tables; the object id
is the index into the store. -/
structure Heap where
  objs : List (List (String × String))
deriving Repr, DecidableEq

/-- The process-start heap: only the registry's internal `locations`
object (id 0) exists. -/
def initialHeap : Heap := ⟨[locations]⟩

/-- Read an object's current contents. -/
def Heap.readObj (h : Heap) (i : Nat) : Option (List (String × String)) :=
  h.objs.get? i

/-- In-place mutation: replace object `i`'s contents (models any sequence
of property writes/deletes a caller performs on the object). -/
def Heap.writeObj (h : Heap) (i : Nat) (tbl : List (String × String)) : Heap :=
  ⟨h.objs.set i tbl⟩

/-- `getAllLocations` on the heap: `{ ...locations }` allocates a fresh
object whose contents are a copy of the registry object's current
contents, and returns its id. -/
def heapGetAllLocations (h : Heap) : Heap × Nat :=
  (⟨h.objs ++ [(h.readObj 0).getD []]⟩, h.objs.length)

/-- `getLocationName` reading the registry object from the heap. -/
def heapResolve (h : Heap) (code : Option String) : Option JsValue :=
  getLocationNameIn ((h.readObj 0).getD []) code

/-- `getAllLocationCodes` reading the registry object from the heap. -/
def heapAllCodes (h : Heap) : List String :=
  ((h.readObj 0).getD []).map Prod.fst

/-! ## Derived notions and fixtures -/

/-- The value the sequential `forEach` routing leaves for an element name:
the value (at time index `i`) of the LAST element called `name`, `none`
when no such element exists.  Used to characterize `routeAll`. -/
def lastVal (name : String) (i : Nat) : List WeatherElement → Option String
  | [] => none
  | e :: rest =>
    match lastVal name i rest with
    | some v => some v
    | none =>
      if e.elementName = name then
        (e.time.get? i).map TimeEntry.parameterName
      else none

/-- The `Wx` element of the synthetic fixture below (two time entries). -/
def specWx : WeatherElement :=
  { elementName := "Wx",
    time := [ ⟨"2024-01-01 00:00", "2024-01-01 06:00", "晴"⟩,
              ⟨"2024-01-01 06:00", "2024-01-01 12:00", "雨"⟩ ] }

/-- The `PoP` element of the synthetic fixture below (matching entries). -/
def specPoP : WeatherElement :=
  { elementName := "PoP",
    time := [ ⟨"2024-01-01 00:00", "2024-01-01 06:00", "10"⟩,
              ⟨"2024-01-01 06:00", "2024-01-01 12:00", "20"⟩ ] }

/-- The single location record of the synthetic fixture below. -/
def specRecord : LocationData :=
  { locationName := "高雄市", weatherElement := [specWx, specPoP] }

/-- The spec's synthetic payload (§8): one record, a `Wx` element with two
time entries and a `PoP` element with matching entries. -/
def specFixture : UpstreamResponse :=
  { location := [specRecord],
    datasetDescription := "三十六小時天氣預報" }

/-- The first forecast period `getWeather` produces from `specFixture`. -/
def specPeriod0 : Forecast :=
  { startTime := "2024-01-01 00:00", endTime := "2024-01-01 06:00",
    weather := "晴", rain := "10%", minTemp := "", maxTemp := "",
    comfort := "", windSpeed := "" }

/-- The second forecast period `getWeather` produces from `specFixture`. -/
def specPeriod1 : Forecast :=
  { startTime := "2024-01-01 06:00", endTime := "2024-01-01 12:00",
    weather := "雨", rain := "20%", minTemp := "", maxTemp := "",
    comfort := "", windSpeed := "" }

/-- The full report `getWeather` produces from `specFixture`. -/
def specReport : WeatherData :=
  { city := "高雄市", updateTime := "三十六小時天氣預報",
    forecasts := [specPeriod0, specPeriod1] }

/-- A payload whose first record holds a `Wx` element that is NOT first
and has more time entries (3) than the first element (2). -/
def wxNotFirstResp : UpstreamResponse :=
  { location :=
      [ { locationName := "台北市",
          weatherElement :=
            [ { elementName := "PoP",
                time := [ ⟨"s1", "e1", "10"⟩, ⟨"s2", "e2", "20"⟩ ] },
              { elementName := "Wx",
                time := [ ⟨"s1", "e1", "晴"⟩, ⟨"s2", "e2", "雨"⟩,
                          ⟨"s3", "e3", "陰"⟩ ] } ] } ],
    datasetDescription := "descr" }

/-- A payload in which the second element has FEWER time entries (1) than
the first (2): `element.time[1].parameter` reads a property of
`undefined`. -/
def shortElemResp : UpstreamResponse :=
  { location :=
      [ { locationName := "台北市",
          weatherElement :=
            [ { elementName := "Wx",
                time := [ ⟨"s1", "e1", "晴"⟩, ⟨"s2", "e2", "雨"⟩ ] },
              { elementName := "PoP",
                time := [ ⟨"s1", "e1", "10"⟩ ] } ] } ],
    datasetDescription := "descr" }

/-! ## Helper lemmas -/

theorem mapIdx_ok_length (g : Nat → Except WErr Forecast) :
    ∀ (xs : List Nat) (l : List Forecast),
      mapIdx g xs = .ok l → l.length = xs.length := by
  intro xs
  induction xs with
  | nil =>
    intro l h
    simp only [mapIdx] at h
    cases h
    rfl
  | cons i is ih =>
    intro l h
    simp only [mapIdx] at h
    cases hg : g i with
    | error err => rw [hg] at h; exact Except.noConfusion h
    | ok f =>
      rw [hg] at h
      cases hrest : mapIdx g is with
      | error err =>
        rw [hrest] at h; exact Except.noConfusion h
      | ok fs =>
        rw [hrest] at h
        replace h : Except.ok (f :: fs) = Except.ok l := h
        cases h
        simp [ih fs hrest]

theorem mapIdx_ok_get (g : Nat → Except WErr Forecast) :
    ∀ (xs : List Nat) (l : List Forecast), mapIdx g xs = .ok l →
      ∀ (j : Nat) (f : Forecast), l.get? j = some f →
        ∃ x, xs.get? j = some x ∧ g x = .ok f := by
  intro xs
  induction xs with
  | nil =>
    intro l h j f hf
    simp only [mapIdx] at h
    cases h
    simp at hf
  | cons i is ih =>
    intro l h j f hf
    simp only [mapIdx] at h
    cases hg : g i with
    | error err => rw [hg] at h; exact Except.noConfusion h
    | ok f0 =>
      rw [hg] at h
      cases hrest : mapIdx g is with
      | error err =>
        rw [hrest] at h; exact Except.noConfusion h
      | ok fs =>
        rw [hrest] at h
        replace h : Except.ok (f0 :: fs) = Except.ok l := h
        cases h
        cases j with
        | zero =>
          simp at hf
          exact ⟨i, rfl, hf ▸ hg⟩
        | succ j =>
          simp only [List.get?] at hf ⊢
          exact ih fs hrest j f hf

theorem routeElement_ok_time {f0 : Forecast} {e : WeatherElement} {i : Nat}
    {f' : Forecast} (h : routeElement f0 e i = .ok f') :
    ∃ te, e.time.get? i = some te := by
  unfold routeElement at h
  cases hte : e.time.get? i with
  | none => rw [hte] at h; exact Except.noConfusion h
  | some te => exact ⟨te, rfl⟩

theorem routeElement_fields {f0 : Forecast} {e : WeatherElement} {i : Nat}
    {te : TimeEntry} (hte : e.time.get? i = some te) {f' : Forecast}
    (h : routeElement f0 e i = .ok f') :
    f'.startTime = f0.startTime ∧ f'.endTime = f0.endTime ∧
    f'.weather = (if e.elementName = "Wx" then te.parameterName
      else f0.weather) ∧
    f'.rain = (if e.elementName = "PoP" then te.parameterName ++ "%"
      else f0.rain) ∧
    f'.minTemp = (if e.elementName = "MinT" then te.parameterName ++ "°C"
      else f0.minTemp) ∧
    f'.maxTemp = (if e.elementName = "MaxT" then te.parameterName ++ "°C"
      else f0.maxTemp) ∧
    f'.comfort = (if e.elementName = "CI" then te.parameterName
      else f0.comfort) ∧
    f'.windSpeed = (if e.elementName = "WS" then te.parameterName
      else f0.windSpeed) := by
  unfold routeElement at h
  rw [hte] at h
  replace h := (Except.ok.injEq _ _).mp h
  subst h
  split <;> simp_all

theorem lastVal_cons_ne {e : WeatherElement} {name : String}
    (hne : e.elementName ≠ name) (i : Nat) (rest : List WeatherElement) :
    lastVal name i (e :: rest) = lastVal name i rest := by
  cases h : lastVal name i rest <;> simp [lastVal, h, hne]

theorem lastVal_cons_eq {e : WeatherElement} {name : String}
    (heq : e.elementName = name) {i : Nat} {te : TimeEntry}
    (hte : e.time.get? i = some te) (rest : List WeatherElement) :
    lastVal name i (e :: rest) =
      some ((lastVal name i rest).getD te.parameterName) := by
  cases h : lastVal name i rest <;>
    simp [lastVal, h, heq, hte, ← List.get?_eq_getElem?]

theorem routeAll_fields (i : Nat) :
    ∀ (wes : List WeatherElement) (f0 f : Forecast),
      routeAll wes i f0 = .ok f →
      f.startTime = f0.startTime ∧ f.endTime = f0.endTime ∧
      f.weather = (lastVal "Wx" i wes).getD f0.weather ∧
      f.rain = ((lastVal "PoP" i wes).map (fun v => v ++ "%")).getD f0.rain ∧
      f.minTemp =
        ((lastVal "MinT" i wes).map (fun v => v ++ "°C")).getD f0.minTemp ∧
      f.maxTemp =
        ((lastVal "MaxT" i wes).map (fun v => v ++ "°C")).getD f0.maxTemp ∧
      f.comfort = (lastVal "CI" i wes).getD f0.comfort ∧
      f.windSpeed = (lastVal "WS" i wes).getD f0.windSpeed := by
  intro wes
  induction wes with
  | nil =>
    intro f0 f h
    simp only [routeAll] at h
    cases h
    simp [lastVal]
  | cons e rest ih =>
    intro f0 f h
    simp only [routeAll] at h
    cases hre : routeElement f0 e i with
    | error err => rw [hre] at h; exact Except.noConfusion h
    | ok f' =>
      rw [hre] at h
      replace h : routeAll rest i f' = .ok f := h
      obtain ⟨te, hte⟩ := routeElement_ok_time hre
      obtain ⟨hst, hen, hwx, hpop, hmin, hmax, hci, hws⟩ :=
        routeElement_fields hte hre
      obtain ⟨ist, ien, iwx, ipop, imin, imax, ici, iws⟩ := ih f' f h
      refine ⟨ist.trans hst, ien.trans hen, ?_, ?_, ?_, ?_, ?_, ?_⟩
      · by_cases hn : e.elementName = "Wx"
        · rw [lastVal_cons_eq hn hte]
          cases hr : lastVal "Wx" i rest <;> simp_all
        · rw [lastVal_cons_ne hn]
          rw [iwx, hwx, if_neg hn]
      · by_cases hn : e.elementName = "PoP"
        · rw [lastVal_cons_eq hn hte]
          cases hr : lastVal "PoP" i rest <;> simp_all
        · rw [lastVal_cons_ne hn]
          rw [ipop, hpop, if_neg hn]
      · by_cases hn : e.elementName = "MinT"
        · rw [lastVal_cons_eq hn hte]
          cases hr : lastVal "MinT" i rest <;> simp_all
        · rw [lastVal_cons_ne hn]
          rw [imin, hmin, if_neg hn]
      · by_cases hn : e.elementName = "MaxT"
        · rw [lastVal_cons_eq hn hte]
          cases hr : lastVal "MaxT" i rest <;> simp_all
        · rw [lastVal_cons_ne hn]
          rw [imax, hmax, if_neg hn]
      · by_cases hn : e.elementName = "CI"
        · rw [lastVal_cons_eq hn hte]
          cases hr : lastVal "CI" i rest <;> simp_all
        · rw [lastVal_cons_ne hn]
          rw [ici, hci, if_neg hn]
      · by_cases hn : e.elementName = "WS"
        · rw [lastVal_cons_eq hn hte]
          cases hr : lastVal "WS" i rest <;> simp_all
        · rw [lastVal_cons_ne hn]
          rw [iws, hws, if_neg hn]

theorem buildForecast_ok {wes : List WeatherElement} {w0 : WeatherElement}
    (hw : wes.head? = some w0) {i : Nat} {f : Forecast}
    (h : buildForecast wes i = .ok f) :
    ∃ t0, w0.time.get? i = some t0 ∧
      f.startTime = t0.startTime ∧ f.endTime = t0.endTime ∧
      f.weather = (lastVal "Wx" i wes).getD "" ∧
      f.rain = ((lastVal "PoP" i wes).map (fun v => v ++ "%")).getD "" ∧
      f.minTemp = ((lastVal "MinT" i wes).map (fun v => v ++ "°C")).getD "" ∧
      f.maxTemp = ((lastVal "MaxT" i wes).map (fun v => v ++ "°C")).getD "" ∧
      f.comfort = (lastVal "CI" i wes).getD "" ∧
      f.windSpeed = (lastVal "WS" i wes).getD "" := by
  unfold buildForecast at h
  split at h
  · exact Except.noConfusion h
  · rename_i w0' hw'
    rw [hw] at hw'
    replace hw' := (Option.some.injEq _ _).mp hw'
    subst hw'
    split at h
    · exact Except.noConfusion h
    · rename_i t0 ht
      obtain ⟨hst, hen, hwx, hpop, hmin, hmax, hci, hws⟩ :=
        routeAll_fields i wes _ f h
      exact ⟨t0, ht, hst, hen, hwx, hpop, hmin, hmax, hci, hws⟩

theorem normalize_ok {loc : String} {resp : UpstreamResponse}
    {wd : WeatherData} (h : normalize loc resp = .ok wd) :
    ∃ rec w0, resp.location.head? = some rec ∧
      rec.weatherElement.head? = some w0 ∧
      wd.city = rec.locationName ∧
      wd.updateTime = resp.datasetDescription ∧
      mapIdx (buildForecast rec.weatherElement)
        (List.range w0.time.length) = .ok wd.forecasts := by
  unfold normalize at h
  split at h
  · exact Except.noConfusion h
  · rename_i rec hrec
    split at h
    · exact Except.noConfusion h
    · rename_i w0 hw0
      replace h : (do
          let forecasts ← mapIdx (buildForecast rec.weatherElement)
            (List.range w0.time.length)
          Except.ok (WeatherData.mk rec.locationName resp.datasetDescription
            forecasts)) = Except.ok wd := h
      cases hmap : mapIdx (buildForecast rec.weatherElement)
          (List.range w0.time.length) with
      | error err =>
        rw [hmap] at h; exact Except.noConfusion h
      | ok fs =>
        rw [hmap] at h
        replace h : Except.ok
            (WeatherData.mk rec.locationName resp.datasetDescription fs) =
            Except.ok wd := h
        replace h := (Except.ok.injEq _ _).mp h
        subst h
        exact ⟨rec, w0, hrec, hw0, rfl, rfl, hmap⟩

theorem getWeather_ok {key : Option String} {loc : String}
    {resp : UpstreamResponse} {wd : WeatherData}
    (h : (getWeather key loc resp).1 = .ok wd) :
    jsFalsy key = false ∧ normalize loc resp = .ok wd := by
  unfold getWeather at h
  cases hk : jsFalsy key with
  | true => rw [hk] at h; simp at h
  | false =>
    rw [hk] at h
    simp at h
    exact ⟨rfl, h⟩

/-! ## Claims -/

/-- C3 (counterexample): the static table has 21 entries, not 22 — the
`total` field of `GET /api/locations` is not 22. -/
theorem C3_counterexample : apiLocations.total ≠ 22 := by decide

/-- C3 (amended): the `total` field returned by `GET /api/locations`
equals the number of entries in the static location table, and that
number is 21. -/
theorem C3_locations_total :
    apiLocations.total = locations.length ∧ apiLocations.total = 21 := by
  exact ⟨by decide, by decide⟩

/-- C4 (counterexample): `"constructor"` is not a registered location
code, yet `getLocationName` returns the inherited (truthy)
`Object.prototype.constructor` — not `null` — and `isValidLocation`
returns `true`: bracket access walks the prototype chain. -/
theorem C4_counterexample :
    jsNormalize "constructor" ∉ getAllLocationCodes ∧
    getLocationName (some "constructor") = some (.protoVal "constructor") ∧
    isValidLocation (some "constructor") = true :=
  ⟨by decide, rfl, rfl⟩

/-- C4 (amended): for every code whose normalization (lowercase, trim)
is neither a registered location code nor the name of an inherited
`Object.prototype` property — including the empty string and `null` —
`getLocationName` returns `none` and `isValidLocation` returns
`false`. -/
theorem C4_unknown_codes (code : Option String)
    (h : ∀ s, code = some s → jsNormalize s ∉ getAllLocationCodes)
    (hp : ∀ s, code = some s → jsNormalize s ∉ objectProtoProps) :
    getLocationName code = none ∧ isValidLocation code = false := by
  have hres : getLocationName code = none := by
    cases code with
    | none => rfl
    | some s =>
      by_cases hs : s = ""
      · simp [getLocationName, getLocationNameIn, hs]
      · have hnot := h s rfl
        have hproto := hp s rfl
        have hfind :
            locations.find? (fun p => p.1 = jsNormalize s) = none := by
          rw [List.find?_eq_none]
          intro p hp'
          simp only [decide_eq_true_eq]
          intro hpeq
          exact hnot (hpeq ▸ List.mem_map_of_mem Prod.fst hp')
        simp [getLocationName, getLocationNameIn, jsLookup, hs, hfind,
          hproto]
  refine ⟨hres, ?_⟩
  simp [isValidLocation, hres]

/-- Witness for C4 at `null`, the empty string and a concrete unknown
code. -/
theorem C4_witness :
    (getLocationName none = none ∧ isValidLocation none = false) ∧
    (getLocationName (some "") = none ∧ isValidLocation (some "") = false) ∧
    (getLocationName (some "gotham") = none ∧
      isValidLocation (some "gotham") = false) :=
  ⟨C4_unknown_codes none (by intro s hs; cases hs)
     (by intro s hs; cases hs),
   C4_unknown_codes (some "") (by intro s hs; cases hs; decide)
     (by intro s hs; cases hs; decide),
   C4_unknown_codes (some "gotham") (by intro s hs; cases hs; decide)
     (by intro s hs; cases hs; decide)⟩

/-- C5: with no configured credential, `getWeather` fails immediately
with the configuration error (status 500, fixed message) and the network
call to the upstream provider is not attempted (the `false` flag). -/
theorem C5_no_credential (key : Option String) (h : jsFalsy key = true)
    (loc : String) (resp : UpstreamResponse) :
    getWeather key loc resp =
      (.error (.thrown 500 "伺服器設定錯誤" "請在 .env 檔案中設定 CWA_API_KEY"),
       false) := by
  simp [getWeather, h]

/-- Witness for C5 at a missing credential and a concrete request. -/
theorem C5_witness :
    getWeather none "高雄市" specFixture =
      (.error (.thrown 500 "伺服器設定錯誤" "請在 .env 檔案中設定 CWA_API_KEY"),
       false) :=
  C5_no_credential none rfl "高雄市" specFixture

/-- C6: with a credential configured but an upstream response whose
location-record list is empty, `getWeather` fails with the 404 error
whose message carries the requested location name; no report is
produced. -/
theorem C6_empty_location_list (key : Option String)
    (hk : jsFalsy key = false) (loc : String) (resp : UpstreamResponse)
    (hresp : resp.location = []) :
    (getWeather key loc resp).1 =
      .error (.thrown 404 "查無資料" ("無法取得 " ++ loc ++ " 的天氣資料")) := by
  simp [getWeather, hk, normalize, hresp]

/-- Witness for C6 at a concrete credential, location and empty-list
response. -/
theorem C6_witness :
    (getWeather (some "key") "高雄市"
        (UpstreamResponse.mk [] "descr")).1 =
      .error (.thrown 404 "查無資料" ("無法取得 " ++ "高雄市" ++ " 的天氣資料")) :=
  C6_empty_location_list (some "key") rfl "高雄市"
    (UpstreamResponse.mk [] "descr") rfl

/-- C7: `getLocationName` is invariant under ASCII case changes for every
known code, and under the surrounding-whitespace round trip
`" TaiPei "` vs `"taipei"`. -/
theorem C7_normalization :
    (∀ c ∈ getAllLocationCodes,
      getLocationName (some (jsToUpperCase c)) = getLocationName (some c)) ∧
    getLocationName (some " TaiPei ") = getLocationName (some "taipei") := by
  exact ⟨by decide, by decide⟩

/-- Witness for C7 at the code `"taipei"`. -/
theorem C7_witness :
    "taipei" ∈ getAllLocationCodes ∧
    getLocationName (some (jsToUpperCase "taipei")) =
      getLocationName (some "taipei") :=
  ⟨by decide, C7_normalization.1 "taipei" (by decide)⟩

/-- C8: on an upstream response in which the second weather element has
fewer time entries (1) than the first (2), `getWeather` raises the raw
`TypeError` from the unguarded read `element.time[i].parameter` — not any
of the tagged error variants. -/
theorem C8_unguarded_time_read :
    shortElemResp.location.map (fun rec =>
        rec.weatherElement.map (fun e => (e.elementName, e.time.length)))
      = [[("Wx", 2), ("PoP", 1)]] ∧
    (getWeather (some "key") "台北市" shortElemResp).1 =
      .error (.typeError "parameter") ∧
    ∀ status err msg,
      (getWeather (some "key") "台北市" shortElemResp).1 ≠
        .error (.thrown status err msg) := by
  refine ⟨rfl, rfl, ?_⟩
  intro status err msg hcontra
  rw [show (getWeather (some "key") "台北市" shortElemResp).1 =
      .error (.typeError "parameter") from rfl] at hcontra
  exact WErr.noConfusion ((Except.error.injEq _ _).mp hcontra)

/-- Witness for C8's universally quantified part at one tagged variant. -/
theorem C8_witness :
    (getWeather (some "key") "台北市" shortElemResp).1 ≠
      .error (.thrown 500 "伺服器設定錯誤" "請在 .env 檔案中設定 CWA_API_KEY") :=
  C8_unguarded_time_read.2.2 500 "伺服器設定錯誤" "請在 .env 檔案中設定 CWA_API_KEY"

/-- C9: `getAllLocations` returns a defensive copy.  On the object heap,
overwriting the returned object with any table leaves the registry's
internal table (object 0) unchanged, and `resolve`, `allCodes` and a
subsequent `allEntries` all return the same results as before the
mutation. -/
theorem C9_defensive_copy (newTbl : List (String × String))
    (code : Option String) :
    (Heap.readObj (Heap.writeObj (heapGetAllLocations initialHeap).1
        (heapGetAllLocations initialHeap).2 newTbl) 0
      = some locations) ∧
    heapResolve (Heap.writeObj (heapGetAllLocations initialHeap).1
        (heapGetAllLocations initialHeap).2 newTbl) code
      = heapResolve initialHeap code ∧
    heapAllCodes (Heap.writeObj (heapGetAllLocations initialHeap).1
        (heapGetAllLocations initialHeap).2 newTbl)
      = heapAllCodes initialHeap ∧
    Heap.readObj (heapGetAllLocations (Heap.writeObj
        (heapGetAllLocations initialHeap).1
        (heapGetAllLocations initialHeap).2 newTbl)).1
      (heapGetAllLocations (Heap.writeObj
        (heapGetAllLocations initialHeap).1
        (heapGetAllLocations initialHeap).2 newTbl)).2
      = Heap.readObj (heapGetAllLocations initialHeap).1
          (heapGetAllLocations initialHeap).2 :=
  ⟨rfl, rfl, rfl, rfl⟩

/-- Witness for C9 at a concrete mutation and a concrete lookup. -/
theorem C9_witness :
    (Heap.readObj (Heap.writeObj (heapGetAllLocations initialHeap).1
        (heapGetAllLocations initialHeap).2 [("x", "y")]) 0
      = some locations) ∧
    heapResolve (Heap.writeObj (heapGetAllLocations initialHeap).1
        (heapGetAllLocations initialHeap).2 [("x", "y")]) (some "taipei")
      = heapResolve initialHeap (some "taipei") ∧
    heapAllCodes (Heap.writeObj (heapGetAllLocations initialHeap).1
        (heapGetAllLocations initialHeap).2 [("x", "y")])
      = heapAllCodes initialHeap ∧
    Heap.readObj (heapGetAllLocations (Heap.writeObj
        (heapGetAllLocations initialHeap).1
        (heapGetAllLocations initialHeap).2 [("x", "y")])).1
      (heapGetAllLocations (Heap.writeObj
        (heapGetAllLocations initialHeap).1
        (heapGetAllLocations initialHeap).2 [("x", "y")])).2
      = Heap.readObj (heapGetAllLocations initialHeap).1
          (heapGetAllLocations initialHeap).2 :=
  C9_defensive_copy [("x", "y")] (some "taipei")

/-- C10: the fixed route `GET /api/weather/kaohsiung` behaves identically
to the parametrized route at `location = "kaohsiung"`, and — for every
credential and upstream fixture — the `"kaohsiung"` code and the native
name `"高雄市"` it resolves to produce identical responses. -/
theorem C10_kaohsiung_routes (key : Option String)
    (resp : UpstreamResponse) :
    handleKaohsiungRoute key resp =
      handleGetWeather key (some "kaohsiung") resp ∧
    handleGetWeather key (some "kaohsiung") resp =
      handleGetWeather key (some "高雄市") resp :=
  ⟨rfl, rfl⟩

/-- Witness for C10 at a concrete credential and fixture. -/
theorem C10_witness :
    handleKaohsiungRoute (some "key") specFixture =
      handleGetWeather (some "key") (some "kaohsiung") specFixture ∧
    handleGetWeather (some "key") (some "kaohsiung") specFixture =
      handleGetWeather (some "key") (some "高雄市") specFixture :=
  C10_kaohsiung_routes (some "key") specFixture

/-- C1 (counterexample): an upstream response whose first record contains
a `Wx` element with 3 time entries — but as the second element, after a
`PoP` element with 2 entries — yields a successful report with 2
forecasts, not 3: the loop bound is the FIRST element's time count. -/
theorem C1_counterexample :
    wxNotFirstResp.location.map (fun rec =>
        rec.weatherElement.map (fun e => (e.elementName, e.time.length)))
      = [[("PoP", 2), ("Wx", 3)]] ∧
    ((getWeather (some "key") "台北市" wxNotFirstResp).1).map
        (fun wd => wd.forecasts.length) = .ok 2 ∧
    ((getWeather (some "key") "台北市" wxNotFirstResp).1).map
        (fun wd => wd.forecasts.length) ≠ .ok 3 := by
  refine ⟨rfl, rfl, ?_⟩
  intro h
  rw [show ((getWeather (some "key") "台北市" wxNotFirstResp).1).map
      (fun wd => wd.forecasts.length) = .ok 2 from rfl] at h
  exact absurd ((Except.ok.injEq _ _).mp h) (by decide)

/-- C1 (amended): for every upstream response whose first location record
contains a `Wx` element AND in which every weather element has the same
number of time entries as the first element (the upstream alignment
contract of spec §3), the report returned by `getWeather` has exactly as
many forecasts as the `Wx` element's time entries. -/
theorem C1_forecast_count (key : Option String) (loc : String)
    (resp : UpstreamResponse) (wd : WeatherData) (rec : LocationData)
    (w0 wx : WeatherElement)
    (hok : (getWeather key loc resp).1 = .ok wd)
    (hrec : resp.location.head? = some rec)
    (hw0 : rec.weatherElement.head? = some w0)
    (hwx : wx ∈ rec.weatherElement) (_hname : wx.elementName = "Wx")
    (halign : ∀ e ∈ rec.weatherElement, e.time.length = w0.time.length) :
    wd.forecasts.length = wx.time.length := by
  obtain ⟨hk, hnorm⟩ := getWeather_ok hok
  obtain ⟨rec', w0', hrec', hw0', hcity, hupd, hmap⟩ := normalize_ok hnorm
  rw [hrec] at hrec'
  replace hrec' := (Option.some.injEq _ _).mp hrec'
  subst hrec'
  rw [hw0] at hw0'
  replace hw0' := (Option.some.injEq _ _).mp hw0'
  subst hw0'
  have hlen := mapIdx_ok_length _ _ _ hmap
  rw [List.length_range] at hlen
  rw [halign wx hwx]
  exact hlen

/-- Witness for C1 at the spec fixture (`Wx` first, both elements with 2
entries). -/
theorem C1_witness : specReport.forecasts.length = specWx.time.length :=
  C1_forecast_count (some "key") "高雄市" specFixture specReport specRecord
    specWx specWx rfl rfl rfl (by decide) rfl (by decide)

/-- C2: at every successful `getWeather` call and every in-range time
index `i`, the forecast's six descriptive fields are exactly what routing
every element's value at `i` by element identifier leaves behind: each
field holds the (last) matching element's value — `PoP` with "%"
appended, `MinT`/`MaxT` with "°C" appended, `Wx`/`CI`/`WS` verbatim —
and the empty string when no element of that identifier exists (any other
identifier is ignored). -/
theorem C2_field_routing (key : Option String) (loc : String)
    (resp : UpstreamResponse) (wd : WeatherData) (rec : LocationData)
    (i : Nat) (f : Forecast)
    (hok : (getWeather key loc resp).1 = .ok wd)
    (hrec : resp.location.head? = some rec)
    (hf : wd.forecasts.get? i = some f) :
    f.weather = (lastVal "Wx" i rec.weatherElement).getD "" ∧
    f.rain = ((lastVal "PoP" i rec.weatherElement).map
        (fun v => v ++ "%")).getD "" ∧
    f.minTemp = ((lastVal "MinT" i rec.weatherElement).map
        (fun v => v ++ "°C")).getD "" ∧
    f.maxTemp = ((lastVal "MaxT" i rec.weatherElement).map
        (fun v => v ++ "°C")).getD "" ∧
    f.comfort = (lastVal "CI" i rec.weatherElement).getD "" ∧
    f.windSpeed = (lastVal "WS" i rec.weatherElement).getD "" := by
  obtain ⟨hk, hnorm⟩ := getWeather_ok hok
  obtain ⟨rec', w0, hrec', hw0, hcity, hupd, hmap⟩ := normalize_ok hnorm
  rw [hrec] at hrec'
  replace hrec' := (Option.some.injEq _ _).mp hrec'
  subst hrec'
  obtain ⟨x, hx, hbuild⟩ := mapIdx_ok_get _ _ _ hmap i f hf
  have hi : i < w0.time.length := by
    obtain ⟨hlt, _⟩ := List.get?_eq_some.mp hx
    simpa using hlt
  rw [List.get?_range hi] at hx
  replace hx := (Option.some.injEq _ _).mp hx
  subst hx
  obtain ⟨t0, ht0, hst, hen, hwx, hpop, hmin, hmax, hci, hws⟩ :=
    buildForecast_ok hw0 hbuild
  exact ⟨hwx, hpop, hmin, hmax, hci, hws⟩

/-- Witness for C2 at the spec fixture, time index 0. -/
theorem C2_witness :
    specPeriod0.weather =
      (lastVal "Wx" 0 specRecord.weatherElement).getD "" ∧
    specPeriod0.rain = ((lastVal "PoP" 0 specRecord.weatherElement).map
        (fun v => v ++ "%")).getD "" ∧
    specPeriod0.minTemp = ((lastVal "MinT" 0 specRecord.weatherElement).map
        (fun v => v ++ "°C")).getD "" ∧
    specPeriod0.maxTemp = ((lastVal "MaxT" 0 specRecord.weatherElement).map
        (fun v => v ++ "°C")).getD "" ∧
    specPeriod0.comfort = (lastVal "CI" 0 specRecord.weatherElement).getD "" ∧
    specPeriod0.windSpeed =
      (lastVal "WS" 0 specRecord.weatherElement).getD "" :=
  C2_field_routing (some "key") "高雄市" specFixture specReport specRecord
    0 specPeriod0 rfl rfl rfl

end CwaWeather
